import Mathlib

/-!
Shallow embedding of the appointment-scheduling core of the repository
(src/assets/server/app/services.py, src/assets/server/app/models.py,
src/assets/server/scripts/db.py).

Modelling conventions:
* MongoDB collections are Lean lists kept in insertion (natural) order;
  find_one is List.find?, insert_one appends, update_one rewrites the first
  matching element and reports whether the document actually changed
  (MongoDB modified_count semantics: a matched document whose fields all
  already equal the values being set counts as not modified).
* datetime.utcnow() is passed in explicitly as a Nat parameter named now;
  date.today() is passed in as an explicit reference date.
* Times of day are minutes since midnight (08:00 = 480, 18:00 = 1080).
  Date and clock strings stored inside documents stay Strings exactly as in
  the source and are parsed with models of the CPython strptime formats the
  code uses.
* Python raises ValueError everywhere; each raise site is tagged with the
  error class the specification assigns to it (validation / notFound /
  conflict). This is faithful because every raise site has a distinct
  message, reproduced verbatim.
-/

/-- Error taxonomy of the specification; every constructor carries the
exact message raised at the corresponding site of services.py. -/
inductive Err where
  | validation : String → Err
  | notFound : String → Err
  | conflict : String → Err
deriving DecidableEq

/-- StatusConsulta from app/models.py (string enum agendada/cancelada/concluida). -/
inductive StatusConsulta where
  | agendada
  | cancelada
  | concluida
deriving DecidableEq

/-- Value of the .value attribute of the string enum, as stored in MongoDB. -/
def statusStr : StatusConsulta → String
  | .agendada => "agendada"
  | .cancelada => "cancelada"
  | .concluida => "concluida"

/-- Especialidade documents (fields used by the core). -/
structure Especialidade where
  id : Nat
  nome : String
deriving DecidableEq

/-- Medico documents (fields used by the core; email/telefone/senha_hash of the
seed script are never read by services.py and are omitted). -/
structure Medico where
  id : Nat
  nome : String
  crm : String
  especialidade_id : Nat
deriving DecidableEq

/-- TipoExame documents. -/
structure TipoExame where
  id : Nat
  descricao : String
deriving DecidableEq

/-- Paciente documents as created by _obter_ou_criar_paciente. -/
structure Paciente where
  id : Nat
  nome : String
  cpf : String
deriving DecidableEq

/-- Consulta documents as created by agendar_consulta.  medico_id and
tipo_exame_id are Option because the Python code only sets those keys when the
corresponding argument is truthy.  created_at/updated_at are the Nat clock. -/
structure Consulta where
  id : Nat
  paciente_id : Nat
  data : String
  hora_inicio : String
  duracao_minutos : Nat
  status : StatusConsulta
  observacoes : String
  medico_id : Option Nat
  tipo_exame_id : Option Nat
  created_at : Nat
  updated_at : Nat
deriving DecidableEq

/-- The database handled by DatabaseService: one list per collection. -/
structure DB where
  especialidades : List Especialidade
  medicos : List Medico
  tipos_exame : List TipoExame
  pacientes : List Paciente
  consultas : List Consulta
deriving DecidableEq

/-- AgendamentoDetalhado from app/models.py: the enriched view returned to the
caller (no duracao_minutos field, exactly as in the Pydantic model). -/
structure AgendamentoDetalhado where
  id : Nat
  paciente_id : Nat
  data : String
  hora_inicio : String
  status : StatusConsulta
  observacoes : String
  medico_id : Option Nat
  tipo_exame_id : Option Nat
  nome_medico : String
  descricao_exame : String
deriving DecidableEq

/-- A free slot returned by verificar_disponibilidade_medico, with both bounds
as minutes since midnight (the code formats them back with strftime). -/
structure Slot where
  hora_inicio : Nat
  hora_fim : Nat
deriving DecidableEq

/-- Maximum of a list of ids; models find_one(sort=(_id, -1)), which returns
the document with the greatest _id, or None on an empty collection. -/
def listMax : List Nat → Option Nat
  | [] => none
  | x :: xs => match listMax xs with
    | none => some x
    | some m => some (max x m)

/-- update_one: rewrite the first element satisfying the filter. -/
def updateFirst {α : Type} (p : α → Bool) (f : α → α) : List α → List α
  | [] => []
  | a :: t => if p a then f a :: t else a :: updateFirst p f t

/-- Python truthiness of an optional integer: None and 0 are falsy.  Used for
the checks of the form if medico_id: in services.py. -/
def pyTruthyNat : Option Nat → Option Nat
  | some n => if n = 0 then none else some n
  | none => none

/-- str.lower restricted to ASCII plus the accented uppercase letters that can
occur in the Portuguese terms the code matches on. -/
def pyCharLower (c : Char) : Char :=
  if 65 ≤ c.toNat ∧ c.toNat ≤ 90 then Char.ofNat (c.toNat + 32)
  else if c = 'Á' then 'á'
  else if c = 'Â' then 'â'
  else if c = 'Ã' then 'ã'
  else if c = 'À' then 'à'
  else if c = 'Ç' then 'ç'
  else if c = 'É' then 'é'
  else if c = 'Ê' then 'ê'
  else if c = 'Í' then 'í'
  else if c = 'Ó' then 'ó'
  else if c = 'Ô' then 'ô'
  else if c = 'Õ' then 'õ'
  else if c = 'Ú' then 'ú'
  else c

/-- str.lower on a whole string. -/
def pyLower (s : String) : String := String.mk (s.toList.map pyCharLower)

/-- Whether the first list is an initial segment of the second. -/
def startsWithChars : List Char → List Char → Bool
  | [], _ => true
  | _ :: _, [] => false
  | a :: as, b :: bs => a == b && startsWithChars as bs

/-- Whether needle occurs contiguously inside the list. -/
def hasSubChars (needle : List Char) : List Char → Bool
  | [] => needle.isEmpty
  | c :: rest => startsWithChars needle (c :: rest) || hasSubChars needle rest

/-- The Python expression needle in hay on strings. -/
def containsSub (hay needle : String) : Bool := hasSubChars needle.toList hay.toList

/-- str.replace(ch, "") for a single-character pattern: drops every
occurrence, preserving the order of the rest. -/
def removeChar (ch : Char) (cs : List Char) : List Char :=
  cs.filter (fun c => !(c == ch))

/-- str.strip(): remove leading and trailing whitespace. -/
def pyStrip (cs : List Char) : List Char :=
  ((cs.dropWhile Char.isWhitespace).reverse.dropWhile Char.isWhitespace).reverse

/-- str.split on a single separator character; mirrors the grouping behaviour
used to model strptime field extraction. -/
def splitOnChar (sep : Char) : List Char → List (List Char)
  | [] => [[]]
  | c :: rest =>
      let r := splitOnChar sep rest
      if c == sep then [] :: r
      else
        match r with
        | [] => [[c]]
        | g :: gs => (c :: g) :: gs

/-- Numeric value of a decimal digit character. -/
def digitVal (c : Char) : Option Nat :=
  if c.isDigit then some (c.toNat - 48) else none

/-- Accumulating decimal evaluation of a digit list. -/
def digitsValAux : Nat → List Char → Option Nat
  | acc, [] => some acc
  | acc, c :: rest =>
      match digitVal c with
      | some d => digitsValAux (acc * 10 + d) rest
      | none => none

/-- Decimal value of a non-empty all-digit character list. -/
def digitsVal (cs : List Char) : Option Nat :=
  if cs.isEmpty then none else digitsValAux 0 cs

/-- datetime.strptime(s, "%H:%M") as minutes since midnight.  CPython's %H
accepts one or two digits in 0..23 and %M one or two digits in 0..59, and the
whole string must be consumed. -/
def parseHora (s : String) : Option Nat :=
  match splitOnChar ':' s.toList with
  | [h, m] =>
      if 1 ≤ h.length ∧ h.length ≤ 2 ∧ 1 ≤ m.length ∧ m.length ≤ 2 then
        match digitsVal h, digitsVal m with
        | some hv, some mv =>
            if hv ≤ 23 ∧ mv ≤ 59 then some (hv * 60 + mv) else none
        | _, _ => none
      else none
  | _ => none

/-- Number of days in a month of the proleptic Gregorian calendar. -/
def daysInMonth (y m : Nat) : Nat :=
  if m = 2 then
    if y % 4 = 0 ∧ (y % 100 ≠ 0 ∨ y % 400 = 0) then 29 else 28
  else if m = 4 ∨ m = 6 ∨ m = 9 ∨ m = 11 then 30
  else 31

/-- datetime.strptime(s, "%Y-%m-%d").date(): four-digit year, one- or
two-digit month 1..12, one- or two-digit day valid for that month. -/
def parseData (s : String) : Option (Nat × Nat × Nat) :=
  match splitOnChar '-' s.toList with
  | [y, m, d] =>
      if y.length = 4 ∧ 1 ≤ m.length ∧ m.length ≤ 2 ∧ 1 ≤ d.length ∧ d.length ≤ 2 then
        match digitsVal y, digitsVal m, digitsVal d with
        | some yv, some mv, some dv =>
            if 1 ≤ mv ∧ mv ≤ 12 ∧ 1 ≤ dv ∧ dv ≤ daysInMonth yv mv then
              some (yv, mv, dv)
            else none
        | _, _, _ => none
      else none
  | _ => none

/-- Unique/non-unique index description, as passed to create_index. -/
structure IndexDef where
  keys : List String
  unique : Bool
deriving DecidableEq

/-- A BSON field value of a consulta document, for index-key comparison. -/
inductive BsonVal where
  | int : Nat → BsonVal
  | str : String → BsonVal
  | missing : BsonVal
deriving DecidableEq

/-- Field access on a consulta document by key name. -/
def consultaField (c : Consulta) : String → BsonVal := fun k =>
  if k = "medico_id" then
    match c.medico_id with
    | some m => .int m
    | none => .missing
  else if k = "data" then .str c.data
  else if k = "hora_inicio" then .str c.hora_inicio
  else if k = "status" then .str (statusStr c.status)
  else if k = "paciente_id" then .int c.paciente_id
  else .missing

/-- The indexes created on the consulta collection by criar_collections in
scripts/db.py: a NON-unique compound index on (medico_id, data) and a
non-unique index on status.  No unique index is declared, so the only unique
key on the collection is the implicit _id index. -/
def criar_collections_consulta : List IndexDef :=
  [{ keys := ["medico_id", "data"], unique := false },
   { keys := ["status"], unique := false }]

/-- Whether insert_one of novo into a collection with the given secondary
indexes raises DuplicateKeyError: either the _id already exists (implicit
unique _id index) or some declared unique index has all its keys equal on an
existing document. -/
def duplicateKeyOnInsert (indexes : List IndexDef) (existing : List Consulta)
    (novo : Consulta) : Bool :=
  existing.any (fun c => decide (c.id = novo.id)) ||
  indexes.any (fun idx =>
    idx.unique && existing.any (fun c =>
      idx.keys.all (fun k => decide (consultaField c k = consultaField novo k))))

/-- services.py _limpar_e_validar_cpf: strip dots, dashes and surrounding
whitespace; accept exactly 11 decimal digits. -/
def _limpar_e_validar_cpf (cpf_bruto : String) : Except Err String :=
  let cpf_limpo := pyStrip (removeChar '-' (removeChar '.' cpf_bruto.toList))
  if cpf_limpo.all Char.isDigit ∧ cpf_limpo.length = 11 then
    .ok (String.mk cpf_limpo)
  else .error (.validation "Formato de CPF inválido. Deve conter 11 dígitos.")

/-- services.py _obter_ou_criar_paciente: look the patient up by cleaned CPF;
if absent, allocate max _id + 1 (fallback 101) and insert with the supplied
name.  Returns the patient together with the possibly extended store. -/
def _obter_ou_criar_paciente (db : DB) (nome_completo : String) (cpf : String) :
    Except Err (Paciente × DB) :=
  match _limpar_e_validar_cpf cpf with
  | .error e => .error e
  | .ok cpf_limpo =>
      match db.pacientes.find? (fun p => decide (p.cpf = cpf_limpo)) with
      | some paciente_doc => .ok (paciente_doc, db)
      | none =>
          let novo_id :=
            match listMax (db.pacientes.map (fun p => p.id)) with
            | some m => m + 1
            | none => 101
          let novo : Paciente := { id := novo_id, nome := nome_completo, cpf := cpf_limpo }
          .ok (novo, { db with pacientes := db.pacientes ++ [novo] })

/-- services.py _enriquecer_e_validar_agendamento on a present document:
join the physician name (find_one by medico_id; the query for an absent key is
find_one by None and matches nothing) and the exam description, with the
defaults of the source. -/
def enrichDoc (db : DB) (c : Consulta) : AgendamentoDetalhado :=
  let medico_doc := c.medico_id.bind (fun m => db.medicos.find? (fun d => decide (d.id = m)))
  let exame_doc := c.tipo_exame_id.bind (fun e => db.tipos_exame.find? (fun d => decide (d.id = e)))
  { id := c.id, paciente_id := c.paciente_id, data := c.data,
    hora_inicio := c.hora_inicio, status := c.status, observacoes := c.observacoes,
    medico_id := c.medico_id, tipo_exame_id := c.tipo_exame_id,
    nome_medico := match medico_doc with
      | some m => m.nome
      | none => "N/A (Apenas Exame)",
    descricao_exame := match exame_doc with
      | some e => e.descricao
      | none => "Consulta de Rotina" }

/-- services.py _enriquecer_e_validar_agendamento, including the None
propagation of its first line. -/
def _enriquecer_e_validar_agendamento (db : DB) (doc : Option Consulta) :
    Option AgendamentoDetalhado :=
  doc.map (enrichDoc db)

/-- services.py agendar_consulta: allocate max _id + 1 (fallback 123), build a
SCHEDULED 30-minute document whose medico_id/tipo_exame_id keys are only set
when truthy, insert it (converting DuplicateKeyError, as determined by the
indexes of criar_collections, into the conflict error), then re-read the
document by its id and enrich it. -/
def agendar_consulta (db : DB) (now : Nat) (paciente_id : Nat)
    (data_str hora_inicio_str : String) (medico_id tipo_exame_id : Option Nat)
    (observacoes : String) : Except Err (Option AgendamentoDetalhado × DB) :=
  let novo_id :=
    match listMax (db.consultas.map (fun c => c.id)) with
    | some m => m + 1
    | none => 123
  let nova_consulta : Consulta :=
    { id := novo_id, paciente_id := paciente_id, data := data_str,
      hora_inicio := hora_inicio_str, duracao_minutos := 30,
      status := .agendada, observacoes := observacoes,
      medico_id := pyTruthyNat medico_id, tipo_exame_id := pyTruthyNat tipo_exame_id,
      created_at := now, updated_at := now }
  if duplicateKeyOnInsert criar_collections_consulta db.consultas nova_consulta then
    .error (.conflict "Conflito de horário. Este médico já possui um agendamento neste exato horário.")
  else
    let db' := { db with consultas := db.consultas ++ [nova_consulta] }
    .ok (_enriquecer_e_validar_agendamento db'
          (db'.consultas.find? (fun c => decide (c.id = novo_id))), db')

/-- The whitelist EXAMES_SEM_ESPECIALISTA of agendar_exame_simples. -/
def EXAMES_SEM_ESPECIALISTA : List String := ["exame de sangue", "raio-x"]

/-- services.py agendar_exame_simples: refuse exams outside the whitelist,
resolve the patient, resolve the exam type by anchored case-insensitive
description match, then delegate to agendar_consulta without a physician. -/
def agendar_exame_simples (db : DB) (now : Nat)
    (nome_paciente cpf_paciente data_str hora_inicio_str nome_exame : String) :
    Except Err (Option AgendamentoDetalhado × DB) :=
  if ¬ EXAMES_SEM_ESPECIALISTA.contains (pyLower nome_exame) then
    .error (.validation (nome_exame ++ " não é um exame simples e requer um médico."))
  else
    match _obter_ou_criar_paciente db nome_paciente cpf_paciente with
    | .error e => .error e
    | .ok (paciente, db1) =>
        match db1.tipos_exame.find? (fun e => decide (pyLower e.descricao = pyLower nome_exame)) with
        | none => .error (.notFound ("O tipo de exame " ++ nome_exame ++ " não foi encontrado no sistema."))
        | some exame_doc =>
            agendar_consulta db1 now paciente.id data_str hora_inicio_str
              none (some exame_doc.id) ("Exame: " ++ nome_exame)

/-- The SCHEDULED appointments of the physician on the date, as fetched by the
find of verificar_disponibilidade_medico. -/
def consultasAgendadasDoDia (db : DB) (medico_id : Nat) (data_str : String) :
    List Consulta :=
  db.consultas.filter (fun c =>
    decide (c.medico_id = some medico_id) && decide (c.data = data_str) &&
    decide (c.status = StatusConsulta.agendada))

/-- Occupied half-open intervals (start, start + duration), in minutes; the
end is taken modulo one day because the source takes .time() of a datetime
sum.  none models the uncaught strptime ValueError on a malformed stored
hora_inicio. -/
def horariosOcupados : List Consulta → Option (List (Nat × Nat))
  | [] => some []
  | c :: rest =>
      match parseHora c.hora_inicio, horariosOcupados rest with
      | some s, some r => some ((s, (s + c.duracao_minutos) % 1440) :: r)
      | _, _ => none

/-- The slot-generation while loop of verificar_disponibilidade_medico: start
times from t while strictly before 18:00 (= 1080), stepping 30 minutes.  The
fuel argument only bounds the number of loop iterations (20 from 08:00), so
1080 is far more than enough; the loop itself is governed by the t < 1080
test exactly as in the source. -/
def slotStartsAux : Nat → Nat → List Nat
  | 0, _ => []
  | fuel + 1, t => if t < 1080 then t :: slotStartsAux fuel (t + 30) else []

/-- Whether a candidate slot starting at t is kept: it must not overlap any
occupied interval, with the strict test inicio_slot < fim and fim_slot > inicio. -/
def slotLivre (occ : List (Nat × Nat)) (t : Nat) : Bool :=
  !(occ.any (fun se => decide (t < se.2) && decide (t + 30 > se.1)))

/-- services.py verificar_disponibilidade_medico: validate the date string,
collect the occupied intervals of the physician's SCHEDULED appointments on
that date, and keep every non-overlapping 30-minute slot of the fixed
08:00-18:00 window, in generation order. -/
def verificar_disponibilidade_medico (db : DB) (medico_id : Nat) (data_str : String) :
    Except Err (List Slot) :=
  match parseData data_str with
  | none => .error (.validation "Formato da data é inválido. Use AAAA-MM-DD.")
  | some _ =>
      match horariosOcupados (consultasAgendadasDoDia db medico_id data_str) with
      | none => .error (.validation "hora_inicio armazenada inválida")
      | some occ =>
          .ok (((slotStartsAux 1080 480).filter (slotLivre occ)).map
                (fun t => { hora_inicio := t, hora_fim := t + 30 }))

/-- The dias_semana dictionary of obter_data_por_termo_relativo, in insertion
order (Python dict iteration order). -/
def dias_semana : List (String × Nat) :=
  [("segunda", 0), ("terca", 1), ("terça", 1), ("quarta", 2), ("quinta", 3),
   ("sexta", 4), ("sabado", 5), ("sábado", 5), ("domingo", 6)]

/-- First weekday entry whose name occurs in the lowered term. -/
def firstWeekday (termo : String) : List (String × Nat) → Option Nat
  | [] => none
  | (nome_dia, num_dia) :: rest =>
      if containsSub termo nome_dia then some num_dia else firstWeekday termo rest

/-- Python date.weekday() on a proleptic Gregorian ordinal (Monday = 0;
ordinal 1, 0001-01-01, is a Monday). -/
def weekdayOf (n : Nat) : Nat := (n + 6) % 7

/-- services.py obter_data_por_termo_relativo, with date.today() passed in as
the ordinal hoje.  Returns the ordinal of the resolved date. -/
def obter_data_por_termo_relativo (hoje : Nat) (termo_data : String) : Nat :=
  let termo := pyLower termo_data
  if containsSub termo "hoje" then hoje
  else if containsSub termo "amanha" || containsSub termo "amanhã" then hoje + 1
  else
    match firstWeekday termo dias_semana with
    | some num_dia =>
        let dias_a_frente := (num_dia + 7 - weekdayOf hoje) % 7
        hoje + (if dias_a_frente = 0 then 7 else dias_a_frente)
    | none => hoje

/-- services.py ver_minhas_consultas, with date.today().isoformat() passed in
as hoje_str: resolve (or silently create, with name Busca) the patient, then
list their SCHEDULED appointments with data >= hoje_str (lexicographic string
comparison, as MongoDB compares strings) sorted by data ascending. -/
def insertByData (c : Consulta) : List Consulta → List Consulta
  | [] => [c]
  | d :: rest => if d.data < c.data then d :: insertByData c rest else c :: d :: rest

/-- Ascending insertion sort on the data field, modelling sort("data", ASCENDING). -/
def sortByData : List Consulta → List Consulta
  | [] => []
  | c :: rest => insertByData c (sortByData rest)

/-- services.py ver_minhas_consultas (the isinstance-dict error branch of the
source is unreachable, since _obter_ou_criar_paciente always returns a
Paciente model, and is therefore not modelled). -/
def ver_minhas_consultas (db : DB) (hoje_str : String) (cpf_paciente : String) :
    Except Err (List AgendamentoDetalhado × DB) :=
  match _obter_ou_criar_paciente db "Busca" cpf_paciente with
  | .error e => .error e
  | .ok (paciente, db1) =>
      let encontradas := db1.consultas.filter (fun c =>
        decide (c.paciente_id = paciente.id) &&
        decide (c.status = StatusConsulta.agendada) &&
        !(decide (c.data < hoje_str)))
      .ok ((sortByData encontradas).map (enrichDoc db1), db1)

/-- services.py reagendar_consulta: find the appointment; if it has a truthy
medico_id, look for any other document of that physician at exactly the new
date and time (whatever its status) and fail on a hit; then update_one the
document, treating modified_count = 0 as the could-not-reschedule error, and
return the enriched re-read document. -/
def reagendar_consulta (db : DB) (now : Nat) (consulta_id : Nat)
    (nova_data_str nova_hora_str : String) :
    Except Err (Option AgendamentoDetalhado × DB) :=
  match db.consultas.find? (fun c => decide (c.id = consulta_id)) with
  | none => .error (.notFound ("Consulta com ID " ++ toString consulta_id ++ " não encontrada."))
  | some consulta_original =>
      let conflito : Option Consulta :=
        match pyTruthyNat consulta_original.medico_id with
        | some medico_id =>
            db.consultas.find? (fun c =>
              decide (c.medico_id = some medico_id) && decide (c.data = nova_data_str) &&
              decide (c.hora_inicio = nova_hora_str) && decide (c.id ≠ consulta_id))
        | none => none
      match conflito with
      | some _ =>
          .error (.conflict ("Conflito de horário. O médico já tem uma consulta para "
            ++ nova_data_str ++ " às " ++ nova_hora_str ++ "."))
      | none =>
          let upd := fun c : Consulta =>
            { c with data := nova_data_str, hora_inicio := nova_hora_str, updated_at := now }
          if upd consulta_original = consulta_original then
            .error (.conflict "Não foi possível reagendar. A data e hora podem já ser as mesmas.")
          else
            let db' := { db with
              consultas := updateFirst (fun c => decide (c.id = consulta_id)) upd db.consultas }
            .ok (_enriquecer_e_validar_agendamento db'
                  (db'.consultas.find? (fun c => decide (c.id = consulta_id))), db')

/-- services.py cancelar_consulta: update_one by _id alone, setting status to
CANCELADA and refreshing updated_at; modified_count = 0 (no match, or a match
that the set leaves unchanged) raises the collapsed not-found error; otherwise
the re-read document is enriched and returned. -/
def cancelar_consulta (db : DB) (now : Nat) (consulta_id : Nat) :
    Except Err (Option AgendamentoDetalhado × DB) :=
  let upd := fun c : Consulta => { c with status := StatusConsulta.cancelada, updated_at := now }
  match db.consultas.find? (fun c => decide (c.id = consulta_id)) with
  | none =>
      .error (.notFound ("Consulta com ID " ++ toString consulta_id
        ++ " não encontrada ou já estava cancelada."))
  | some c =>
      if upd c = c then
        .error (.notFound ("Consulta com ID " ++ toString consulta_id
          ++ " não encontrada ou já estava cancelada."))
      else
        let db' := { db with
          consultas := updateFirst (fun x => decide (x.id = consulta_id)) upd db.consultas }
        .ok (_enriquecer_e_validar_agendamento db'
              (db'.consultas.find? (fun x => decide (x.id = consulta_id))), db')

/-- The example data loaded by inserir_exemplos in scripts/db.py (timestamps
modelled as 0). -/
def seedDB : DB :=
  { especialidades := [⟨1, "Cardiologia"⟩, ⟨2, "Ortopedia"⟩],
    medicos := [⟨42, "Dr. João Silva", "12345", 1⟩, ⟨58, "Dra. Maria Souza", "67890", 2⟩],
    tipos_exame := [⟨1, "Exame de Sangue"⟩, ⟨2, "Raio-X"⟩],
    pacientes := [⟨101, "Carlos Silva", "11122233344"⟩, ⟨102, "Ana Pereira", "55566677788"⟩],
    consultas := [{ id := 123, paciente_id := 101, data := "2025-06-10", hora_inicio := "14:00",
                    duracao_minutos := 30, status := .agendada, observacoes := "Primeira consulta",
                    medico_id := some 42, tipo_exame_id := some 1, created_at := 0, updated_at := 0 }] }

/-- Store used to exercise the double-booking scenario: one physician, one
patient, no appointments yet. -/
def c1db : DB :=
  { especialidades := [⟨1, "Cardiologia"⟩],
    medicos := [⟨42, "Dr. João Silva", "12345", 1⟩],
    tipos_exame := [],
    pacientes := [⟨101, "Carlos Silva", "11122233344"⟩],
    consultas := [] }

/-- Store with one already-cancelled appointment (id 5, updated_at 0) and one
scheduled appointment (id 6). -/
def c2db : DB :=
  { especialidades := [], medicos := [], tipos_exame := [], pacientes := [],
    consultas := [
      { id := 5, paciente_id := 101, data := "2025-06-10", hora_inicio := "14:00",
        duracao_minutos := 30, status := .cancelada, observacoes := "",
        medico_id := some 42, tipo_exame_id := none, created_at := 0, updated_at := 0 },
      { id := 6, paciente_id := 101, data := "2025-06-11", hora_inicio := "15:00",
        duracao_minutos := 30, status := .agendada, observacoes := "",
        medico_id := some 42, tipo_exame_id := none, created_at := 0, updated_at := 0 }] }

/-- A scheduled consultation of physician 42, used by the reschedule scenarios. -/
def c3X : Consulta :=
  { id := 7, paciente_id := 101, data := "2025-06-10", hora_inicio := "14:00",
    duracao_minutos := 30, status := .agendada, observacoes := "",
    medico_id := some 42, tipo_exame_id := none, created_at := 0, updated_at := 0 }

/-- A second appointment of physician 42 occupying 2025-07-15 09:00. -/
def c3Y : Consulta :=
  { id := 8, paciente_id := 102, data := "2025-07-15", hora_inicio := "09:00",
    duracao_minutos := 30, status := .agendada, observacoes := "",
    medico_id := some 42, tipo_exame_id := none, created_at := 0, updated_at := 0 }

/-- Store with no appointments at all (reschedule of a missing id). -/
def c3dbA : DB :=
  { especialidades := [], medicos := [], tipos_exame := [], pacientes := [], consultas := [] }

/-- Store where the target slot is taken by another appointment of the same
physician. -/
def c3dbB : DB :=
  { especialidades := [], medicos := [], tipos_exame := [], pacientes := [],
    consultas := [c3X, c3Y] }

/-- Store where the target slot is free. -/
def c3dbC : DB :=
  { especialidades := [], medicos := [], tipos_exame := [], pacientes := [],
    consultas := [c3X] }

/-- Store for the availability scenario: physician 42 occupied 14:00-14:30 on
2025-06-10. -/
def c4db : DB :=
  { especialidades := [], medicos := [], tipos_exame := [], pacientes := [],
    consultas := [
      { id := 1, paciente_id := 101, data := "2025-06-10", hora_inicio := "14:00",
        duracao_minutos := 30, status := .agendada, observacoes := "",
        medico_id := some 42, tipo_exame_id := none, created_at := 0, updated_at := 0 }] }

/-- The 19 free slots of c4db on 2025-06-10 (every slot except 14:00-14:30),
in minutes since midnight. -/
def c4slots : List Slot :=
  [⟨480, 510⟩, ⟨510, 540⟩, ⟨540, 570⟩, ⟨570, 600⟩, ⟨600, 630⟩, ⟨630, 660⟩,
   ⟨660, 690⟩, ⟨690, 720⟩, ⟨720, 750⟩, ⟨750, 780⟩, ⟨780, 810⟩, ⟨810, 840⟩,
   ⟨870, 900⟩, ⟨900, 930⟩, ⟨930, 960⟩, ⟨960, 990⟩, ⟨990, 1020⟩, ⟨1020, 1050⟩,
   ⟨1050, 1080⟩]

/-- Store whose appointments never match physician 42 on 2025-07-15 (other
physician, other date, or cancelled), so that day is completely free. -/
def c5db : DB :=
  { especialidades := [], medicos := [], tipos_exame := [], pacientes := [],
    consultas := [
      { id := 1, paciente_id := 101, data := "2025-07-15", hora_inicio := "09:00",
        duracao_minutos := 30, status := .agendada, observacoes := "",
        medico_id := some 58, tipo_exame_id := none, created_at := 0, updated_at := 0 },
      { id := 2, paciente_id := 101, data := "2025-07-16", hora_inicio := "10:00",
        duracao_minutos := 30, status := .agendada, observacoes := "",
        medico_id := some 42, tipo_exame_id := none, created_at := 0, updated_at := 0 },
      { id := 3, paciente_id := 101, data := "2025-07-15", hora_inicio := "11:00",
        duracao_minutos := 30, status := .cancelada, observacoes := "",
        medico_id := some 42, tipo_exame_id := none, created_at := 0, updated_at := 0 }] }

/-- Store with one patient whose CPF differs from the one being resolved. -/
def c6db : DB :=
  { especialidades := [], medicos := [], tipos_exame := [],
    pacientes := [⟨101, "Carlos Silva", "11122233344"⟩], consultas := [] }

/-- The appointment being rescheduled in the status-blindness scenario. -/
def c9X : Consulta :=
  { id := 1, paciente_id := 101, data := "2025-06-10", hora_inicio := "14:00",
    duracao_minutos := 30, status := .agendada, observacoes := "",
    medico_id := some 42, tipo_exame_id := none, created_at := 0, updated_at := 0 }

/-- The CANCELLED appointment of the same physician occupying the target slot. -/
def c9Y : Consulta :=
  { id := 2, paciente_id := 102, data := "2025-07-15", hora_inicio := "09:00",
    duracao_minutos := 30, status := .cancelada, observacoes := "",
    medico_id := some 42, tipo_exame_id := none, created_at := 0, updated_at := 0 }

/-- Store for the status-blind reschedule conflict. -/
def c9db : DB :=
  { especialidades := [], medicos := [], tipos_exame := [], pacientes := [],
    consultas := [c9X, c9Y] }

/-- Store with one known patient and their future appointment; the CPF looked
up by the listing scenario belongs to nobody. -/
def c10db : DB :=
  { especialidades := [], medicos := [], tipos_exame := [],
    pacientes := [⟨101, "Carlos Silva", "55566677788"⟩],
    consultas := [
      { id := 123, paciente_id := 101, data := "2099-01-01", hora_inicio := "09:00",
        duracao_minutos := 30, status := .agendada, observacoes := "",
        medico_id := some 42, tipo_exame_id := none, created_at := 0, updated_at := 0 }] }

/-- find? misses a list all of whose elements fail the predicate. -/
theorem find_none_of_all {α : Type} {p : α → Bool} {l : List α}
    (h : ∀ x ∈ l, p x = false) : l.find? p = none := by
  rw [List.find?_eq_none]
  intro x hx
  simp [h x hx]

/-- find? over an append whose left part has no hit. -/
theorem find_append_of_none {α : Type} {p : α → Bool} {l₁ l₂ : List α}
    (h : l₁.find? p = none) : (l₁ ++ l₂).find? p = l₂.find? p := by
  induction l₁ with
  | nil => rfl
  | cons a t ih =>
      cases hpa : p a with
      | true => simp [List.find?_cons, hpa] at h
      | false =>
          simp only [List.find?_cons, hpa] at h
          simp only [List.cons_append, List.find?_cons, hpa]
          exact ih h

/-- After updateFirst rewrites the first hit of the filter, find? with the same
filter returns the rewritten document (provided it still matches). -/
theorem updateFirst_find {α : Type} {p : α → Bool} {f : α → α} {l : List α} {c : α}
    (h : l.find? p = some c) (hf : p (f c) = true) :
    (updateFirst p f l).find? p = some (f c) := by
  induction l with
  | nil => simp [List.find?] at h
  | cons a t ih =>
      cases hpa : p a with
      | true =>
          simp only [List.find?_cons, hpa, Option.some.injEq] at h
          subst h
          simp [updateFirst, hpa, List.find?_cons, hf]
      | false =>
          simp only [List.find?_cons, hpa] at h
          simp only [updateFirst, hpa, Bool.false_eq_true, if_false, List.find?_cons]
          exact ih h

/-- A list with a defined maximum bounds all of its members. -/
theorem listMax_ge_mem {l : List Nat} {m x : Nat} (h : listMax l = some m)
    (hx : x ∈ l) : x ≤ m := by
  induction l generalizing m with
  | nil => cases hx
  | cons a t ih =>
      cases ht : listMax t with
      | none =>
          rw [listMax, ht] at h
          have ht' : t = [] := by
            cases t with
            | nil => rfl
            | cons b s => rw [listMax] at ht; cases hs : listMax s <;> rw [hs] at ht <;> cases ht
          subst ht'
          rcases List.mem_cons.mp hx with rfl | hmem
          · injection h with h; omega
          · cases hmem
      | some mt =>
          rw [listMax, ht] at h
          injection h with h
          rcases List.mem_cons.mp hx with rfl | hmem
          · omega
          · have := ih ht hmem; omega

/-- An empty maximum means an empty list. -/
theorem listMax_eq_none {l : List Nat} (h : listMax l = none) : l = [] := by
  cases l with
  | nil => rfl
  | cons a t => rw [listMax] at h; cases ht : listMax t <;> rw [ht] at h <;> cases h

/-- Every successfully parsed appointment of the fetched list contributes its
half-open occupied interval. -/
theorem horariosOcupados_mem {l : List Consulta} {occ : List (Nat × Nat)}
    (h : horariosOcupados l = some occ) {c : Consulta} (hc : c ∈ l) {s : Nat}
    (hs : parseHora c.hora_inicio = some s) :
    (s, (s + c.duracao_minutos) % 1440) ∈ occ := by
  induction l generalizing occ with
  | nil => cases hc
  | cons a t ih =>
      rw [horariosOcupados] at h
      cases hpa : parseHora a.hora_inicio with
      | none => rw [hpa] at h; cases h
      | some sa =>
          rw [hpa] at h
          cases hrt : horariosOcupados t with
          | none => rw [hrt] at h; cases h
          | some rt =>
              rw [hrt] at h
              injection h with h
              subst h
              rcases List.mem_cons.mp hc with rfl | hct
              · rw [hpa] at hs
                injection hs with hs
                subst hs
                exact List.mem_cons_self _ _
              · exact List.mem_cons_of_mem _ (ih hrt hct)

/-- Every start produced by the slot loop is at least the loop's entry time. -/
theorem slotStartsAux_mem_lb {fuel t x : Nat} (h : x ∈ slotStartsAux fuel t) :
    t ≤ x := by
  induction fuel generalizing t with
  | zero => cases h
  | succ f ih =>
      rw [slotStartsAux] at h
      by_cases ht : t < 1080
      · rw [if_pos ht] at h
        rcases List.mem_cons.mp h with rfl | hx
        · exact Nat.le_refl x
        · have := ih hx; omega
      · rw [if_neg ht] at h; cases h

/-- The slot loop produces strictly increasing start times. -/
theorem slotStartsAux_pairwise (fuel t : Nat) :
    (slotStartsAux fuel t).Pairwise (fun a b => a < b) := by
  induction fuel generalizing t with
  | zero => exact List.Pairwise.nil
  | succ f ih =>
      rw [slotStartsAux]
      by_cases ht : t < 1080
      · rw [if_pos ht]
        refine List.Pairwise.cons ?_ (ih (t + 30))
        intro b hb
        have := slotStartsAux_mem_lb hb
        omega
      · rw [if_neg ht]; exact List.Pairwise.nil

/-- A weekday number found in a table of weekday numbers below seven is below
seven. -/
theorem firstWeekday_bound {termo : String} {l : List (String × Nat)} {n : Nat}
    (hall : ∀ pr ∈ l, pr.2 < 7) (h : firstWeekday termo l = some n) : n < 7 := by
  induction l with
  | nil => cases h
  | cons pr rest ih =>
      cases pr with
      | mk nome_dia num_dia =>
          rw [firstWeekday] at h
          by_cases hc : containsSub termo nome_dia = true
          · rw [if_pos hc] at h
            injection h with h
            rw [← h]
            exact hall ⟨nome_dia, num_dia⟩ (List.mem_cons_self _ _)
          · rw [if_neg hc] at h
            exact ih (fun q hq => hall q (List.mem_cons_of_mem _ hq)) h

/-- Boolean check that each slot of the list starts exactly where the
previous one ends. -/
def contiguousSlots : List Slot → Bool
  | [] => true
  | [_] => true
  | a :: b :: rest => decide (b.hora_inicio = a.hora_fim) && contiguousSlots (b :: rest)

/-- A missing appointment id makes reagendar_consulta fail with the not-found
error. -/
theorem reagendar_notFound_aux (db : DB) (now consulta_id : Nat)
    (nd nh : String) (habs : ∀ c ∈ db.consultas, c.id ≠ consulta_id) :
    reagendar_consulta db now consulta_id nd nh =
      .error (.notFound ("Consulta com ID " ++ toString consulta_id ++ " não encontrada.")) := by
  have hfind : db.consultas.find? (fun c => decide (c.id = consulta_id)) = none :=
    find_none_of_all (fun c hc => by simp [habs c hc])
  simp only [reagendar_consulta, hfind]

/-- An occupied target slot of the appointment's physician makes
reagendar_consulta fail with the conflict error, whatever the status of the
blocking appointment. -/
theorem reagendar_conflict_aux (db : DB) (now consulta_id : Nat)
    (nd nh : String) (X Y : Consulta) (m : Nat)
    (hX : db.consultas.find? (fun c => decide (c.id = consulta_id)) = some X)
    (hm : pyTruthyNat X.medico_id = some m)
    (hYmem : Y ∈ db.consultas) (hYid : Y.id ≠ consulta_id)
    (hYm : Y.medico_id = some m) (hYd : Y.data = nd) (hYh : Y.hora_inicio = nh) :
    reagendar_consulta db now consulta_id nd nh =
      .error (.conflict ("Conflito de horário. O médico já tem uma consulta para "
        ++ nd ++ " às " ++ nh ++ ".")) := by
  have hpred : (fun c : Consulta => decide (c.medico_id = some m) && decide (c.data = nd) &&
      decide (c.hora_inicio = nh) && decide (c.id ≠ consulta_id)) Y = true := by
    simp [hYm, hYd, hYh, hYid]
  cases hfind : db.consultas.find? (fun c => decide (c.medico_id = some m) &&
      decide (c.data = nd) && decide (c.hora_inicio = nh) && decide (c.id ≠ consulta_id)) with
  | none =>
      exact absurd hpred (by simpa using List.find?_eq_none.mp hfind Y hYmem)
  | some Z =>
      simp only [reagendar_consulta, hX, hm, hfind]

/-- With the appointment present, no conflicting document, and a fresh clock,
reagendar_consulta updates the document and the re-read reflects the new date
and time. -/
theorem reagendar_success_aux (db : DB) (now consulta_id : Nat)
    (nd nh : String) (X : Consulta)
    (hX : db.consultas.find? (fun c => decide (c.id = consulta_id)) = some X)
    (hno : ∀ Y ∈ db.consultas, ∀ m, pyTruthyNat X.medico_id = some m →
      ¬(Y.id ≠ consulta_id ∧ Y.medico_id = some m ∧ Y.data = nd ∧ Y.hora_inicio = nh))
    (hnow : now ≠ X.updated_at) :
    ∃ view db',
      reagendar_consulta db now consulta_id nd nh = .ok (some view, db') ∧
      view.data = nd ∧ view.hora_inicio = nh ∧
      db'.consultas.find? (fun c => decide (c.id = consulta_id)) =
        some { X with data := nd, hora_inicio := nh, updated_at := now } := by
  have hXid : X.id = consulta_id := by
    have := List.find?_some hX
    simpa using this
  have hne : ({ X with data := nd, hora_inicio := nh, updated_at := now } : Consulta) ≠ X := by
    intro hEq
    exact hnow (congrArg Consulta.updated_at hEq)
  have hreread : (updateFirst (fun c => decide (c.id = consulta_id))
      (fun c => { c with data := nd, hora_inicio := nh, updated_at := now })
      db.consultas).find? (fun c => decide (c.id = consulta_id)) =
      some { X with data := nd, hora_inicio := nh, updated_at := now } :=
    updateFirst_find hX (by simp [hXid])
  cases hm : pyTruthyNat X.medico_id with
  | none =>
      refine ⟨enrichDoc { db with consultas := (updateFirst
          (fun c => decide (c.id = consulta_id))
          (fun c => { c with data := nd, hora_inicio := nh, updated_at := now })
          db.consultas) } { X with data := nd, hora_inicio := nh, updated_at := now },
        { db with consultas := (updateFirst (fun c => decide (c.id = consulta_id))
          (fun c => { c with data := nd, hora_inicio := nh, updated_at := now })
          db.consultas) }, ?_, rfl, rfl, hreread⟩
      simp only [reagendar_consulta, hX, hm, if_neg hne,
        _enriquecer_e_validar_agendamento, hreread]
      rfl
  | some m =>
      have hfind : db.consultas.find? (fun c => decide (c.medico_id = some m) &&
          decide (c.data = nd) && decide (c.hora_inicio = nh) &&
          decide (c.id ≠ consulta_id)) = none := by
        refine find_none_of_all (fun Y hY => ?_)
        have := hno Y hY m hm
        simp only [Bool.and_eq_false_iff, decide_eq_false_iff_not]
        by_contra hc
        push_neg at hc
        obtain ⟨⟨⟨h1, h2⟩, h3⟩, h4⟩ := hc
        exact this ⟨by simpa using h4, by simpa using h1, by simpa using h2, by simpa using h3⟩
      refine ⟨enrichDoc { db with consultas := (updateFirst
          (fun c => decide (c.id = consulta_id))
          (fun c => { c with data := nd, hora_inicio := nh, updated_at := now })
          db.consultas) } { X with data := nd, hora_inicio := nh, updated_at := now },
        { db with consultas := (updateFirst (fun c => decide (c.id = consulta_id))
          (fun c => { c with data := nd, hora_inicio := nh, updated_at := now })
          db.consultas) }, ?_, rfl, rfl, hreread⟩
      simp only [reagendar_consulta, hX, hm, hfind, if_neg hne,
        _enriquecer_e_validar_agendamento, hreread]
      rfl

/-- C1: the claim states that, given the index definitions created by
criar_collections, booking a second appointment for the same physician at the
identical date and start time fails with ConflictError.  In fact
criar_collections declares no unique index on the consulta collection and the
primary key is allocated as max + 1, so insert_one never raises
DuplicateKeyError in this scenario: both calls to the booking primitive
agendar_consulta succeed and two identical (physician, date, start time)
appointments coexist, refuting the claim and contradicting the intent of the
except-DuplicateKeyError handler and of the docstring of agendar_consulta. -/
theorem C1_second_booking_succeeds :
    ∃ v1 db1 v2 db2,
      agendar_consulta c1db 0 101 "2025-07-15" "09:00" (some 42) none "" = .ok (v1, db1) ∧
      agendar_consulta db1 1 101 "2025-07-15" "09:00" (some 42) none "" = .ok (v2, db2) ∧
      db2.consultas.length = 2 ∧
      db2.consultas.map (fun c => (c.medico_id, c.data, c.hora_inicio)) =
        [(some 42, "2025-07-15", "09:00"), (some 42, "2025-07-15", "09:00")] := by
  refine ⟨_, _, _, _, rfl, rfl, rfl, rfl⟩

/-- C2: the claim states that cancelling an already-CANCELLED appointment
fails with NotFoundError and leaves the record unchanged.  In fact the
update_one of cancelar_consulta filters on _id only and always rewrites
updated_at to the current clock, so the document of appointment 5 (already
cancelled, updated_at 0) is modified (modified_count 1) and the call SUCCEEDS
at clock 1, refuting the claim and the docstring of cancelar_consulta.  The
second half of the claim does hold: cancelling the SCHEDULED appointment 6
succeeds and the subsequent read shows CANCELLED. -/
theorem C2_cancel_already_cancelled_succeeds :
    (∃ v1 db1, cancelar_consulta c2db 1 5 = .ok (some v1, db1) ∧
      v1.id = 5 ∧ v1.status = StatusConsulta.cancelada) ∧
    (∃ v2 db2, cancelar_consulta c2db 1 6 = .ok (some v2, db2) ∧
      v2.id = 6 ∧ v2.status = StatusConsulta.cancelada ∧
      (db2.consultas.find? (fun c => decide (c.id = 6))).map (fun c => c.status) =
        some StatusConsulta.cancelada) := by
  exact ⟨⟨_, _, rfl, rfl, rfl⟩, ⟨_, _, rfl, rfl, rfl, rfl⟩⟩

/-- C3: reagendar_consulta fails with NotFoundError when no appointment with
the id exists; when the appointment exists with an assigned physician it fails
with ConflictError if any other appointment (different id) of that physician
sits at exactly the new date and start time; otherwise (and with a clock value
different from the stored updated_at, as utcnow always is) the update is
applied and the subsequent read reflects the new date and time. -/
theorem C3_reagendar_lifecycle (db : DB) (now consulta_id : Nat) (nd nh : String) :
    ((∀ c ∈ db.consultas, c.id ≠ consulta_id) →
      reagendar_consulta db now consulta_id nd nh =
        .error (.notFound ("Consulta com ID " ++ toString consulta_id ++ " não encontrada.")))
  ∧ (∀ X Y, db.consultas.find? (fun c => decide (c.id = consulta_id)) = some X →
      ∀ m, pyTruthyNat X.medico_id = some m →
      Y ∈ db.consultas → Y.id ≠ consulta_id → Y.medico_id = some m →
      Y.data = nd → Y.hora_inicio = nh →
      reagendar_consulta db now consulta_id nd nh =
        .error (.conflict ("Conflito de horário. O médico já tem uma consulta para "
          ++ nd ++ " às " ++ nh ++ ".")))
  ∧ (∀ X, db.consultas.find? (fun c => decide (c.id = consulta_id)) = some X →
      (∀ Y ∈ db.consultas, ∀ m, pyTruthyNat X.medico_id = some m →
        ¬(Y.id ≠ consulta_id ∧ Y.medico_id = some m ∧ Y.data = nd ∧ Y.hora_inicio = nh)) →
      now ≠ X.updated_at →
      ∃ view db',
        reagendar_consulta db now consulta_id nd nh = .ok (some view, db') ∧
        view.data = nd ∧ view.hora_inicio = nh ∧
        db'.consultas.find? (fun c => decide (c.id = consulta_id)) =
          some { X with data := nd, hora_inicio := nh, updated_at := now }) :=
  ⟨fun h => reagendar_notFound_aux db now consulta_id nd nh h,
   fun X Y hX m hm hYmem hYid hYm hYd hYh =>
     reagendar_conflict_aux db now consulta_id nd nh X Y m hX hm hYmem hYid hYm hYd hYh,
   fun X hX hno hnow => reagendar_success_aux db now consulta_id nd nh X hX hno hnow⟩

/-- Concrete instances of the three branches of the reschedule lifecycle. -/
theorem C3_reagendar_lifecycle_witness :
    reagendar_consulta c3dbA 0 7 "2025-08-01" "10:00" =
      .error (.notFound ("Consulta com ID " ++ toString 7 ++ " não encontrada."))
  ∧ reagendar_consulta c3dbB 0 7 "2025-07-15" "09:00" =
      .error (.conflict ("Conflito de horário. O médico já tem uma consulta para "
        ++ "2025-07-15" ++ " às " ++ "09:00" ++ "."))
  ∧ (∃ view db',
      reagendar_consulta c3dbC 1 7 "2025-08-01" "10:00" = .ok (some view, db') ∧
      view.data = "2025-08-01" ∧ view.hora_inicio = "10:00" ∧
      db'.consultas.find? (fun c => decide (c.id = 7)) =
        some { c3X with data := "2025-08-01", hora_inicio := "10:00", updated_at := 1 }) :=
  ⟨(C3_reagendar_lifecycle c3dbA 0 7 "2025-08-01" "10:00").1 (by decide),
   (C3_reagendar_lifecycle c3dbB 0 7 "2025-07-15" "09:00").2.1 c3X c3Y (by rfl) 42 (by rfl)
     (by decide) (by decide) (by rfl) (by rfl) (by rfl),
   (C3_reagendar_lifecycle c3dbC 1 7 "2025-08-01" "10:00").2.2 c3X (by rfl)
     (by
       intro Y hY m hm hcon
       have hYX : Y = c3X := by
         have : Y ∈ [c3X] := hY
         simpa using this
       subst hYX
       exact hcon.1 rfl)
     (by decide)⟩

/-- C9: the conflict check of reagendar_consulta queries only
(medico_id, data, hora_inicio, different id) and never looks at status, so a
CANCELLED (or COMPLETED) appointment of the same physician at the target slot
still triggers ConflictError. -/
theorem C9_reschedule_conflict_ignores_status (db : DB) (now consulta_id : Nat)
    (nd nh : String) (X Y : Consulta) (m : Nat)
    (hX : db.consultas.find? (fun c => decide (c.id = consulta_id)) = some X)
    (hm : pyTruthyNat X.medico_id = some m)
    (hYmem : Y ∈ db.consultas) (hYid : Y.id ≠ consulta_id)
    (hYm : Y.medico_id = some m) (hYd : Y.data = nd) (hYh : Y.hora_inicio = nh)
    (hYstatus : Y.status ≠ StatusConsulta.agendada) :
    reagendar_consulta db now consulta_id nd nh =
      .error (.conflict ("Conflito de horário. O médico já tem uma consulta para "
        ++ nd ++ " às " ++ nh ++ ".")) :=
  reagendar_conflict_aux db now consulta_id nd nh X Y m hX hm hYmem hYid hYm hYd hYh

/-- Concrete instance: rescheduling appointment 1 onto the slot of the
CANCELLED appointment 2 of the same physician is refused. -/
theorem C9_reschedule_conflict_ignores_status_witness :
    reagendar_consulta c9db 3 1 "2025-07-15" "09:00" =
      .error (.conflict ("Conflito de horário. O médico já tem uma consulta para "
        ++ "2025-07-15" ++ " às " ++ "09:00" ++ ".")) :=
  C9_reschedule_conflict_ignores_status c9db 3 1 "2025-07-15" "09:00" c9X c9Y 42
    (by rfl) (by rfl) (by decide) (by decide) (by rfl) (by rfl) (by rfl) (by decide)

/-- C8 as frozen is false on the code: the booking succeeds with all the
claimed fields except that nome_medico is the source literal
N/A (Apenas Exame), not the translated string N/A (exam only) the claim
demands. -/
theorem C8_exam_view_counterexample :
    ∃ v db', agendar_exame_simples seedDB 0 "Carlos Silva" "111.222.333-44"
        "2025-07-15" "09:00" "Exame de Sangue" = .ok (some v, db') ∧
      v.nome_medico ≠ "N/A (exam only)" := by
  refine ⟨_, _, rfl, by decide⟩

/-- C8 amended: booking the exam Exame de Sangue for national id
111.222.333-44 on 2025-07-15 at 09:00 on the seeded store returns a view with
examTypeId set, physicianId absent, descricao_exame Exame de Sangue and
nome_medico equal to the code's sentinel N/A (Apenas Exame). -/
theorem C8_exam_view_amended :
    ∃ v db', agendar_exame_simples seedDB 0 "Carlos Silva" "111.222.333-44"
        "2025-07-15" "09:00" "Exame de Sangue" = .ok (some v, db') ∧
      v.tipo_exame_id.isSome = true ∧ v.medico_id = none ∧
      v.descricao_exame = "Exame de Sangue" ∧ v.nome_medico = "N/A (Apenas Exame)" := by
  refine ⟨_, _, rfl, by decide, by decide, by decide, by decide⟩

/-- C4: every slot returned by verificar_disponibilidade_medico avoids every
occupied interval of the physician's SCHEDULED appointments on the date (for
an interval starting at s of length duracao_minutos the slot ends by s or
starts at or after the interval's end), and the slots come back in
chronological order. -/
theorem C4_free_slots_sound (db : DB) (medico_id : Nat) (data_str : String)
    (slots : List Slot)
    (h : verificar_disponibilidade_medico db medico_id data_str = .ok slots) :
    (∀ sl ∈ slots, ∀ c ∈ db.consultas,
      c.medico_id = some medico_id → c.data = data_str →
      c.status = StatusConsulta.agendada →
      ∀ s, parseHora c.hora_inicio = some s →
        sl.hora_fim ≤ s ∨ (s + c.duracao_minutos) % 1440 ≤ sl.hora_inicio)
    ∧ slots.Pairwise (fun a b => a.hora_inicio < b.hora_inicio) := by
  cases hpd : parseData data_str with
  | none =>
      simp only [verificar_disponibilidade_medico, hpd] at h
      exact Except.noConfusion h
  | some d =>
      cases hoc : horariosOcupados (consultasAgendadasDoDia db medico_id data_str) with
      | none =>
          simp only [verificar_disponibilidade_medico, hpd, hoc] at h
          exact Except.noConfusion h
      | some occ =>
          simp only [verificar_disponibilidade_medico, hpd, hoc, Except.ok.injEq] at h
          subst h
          constructor
          · intro sl hsl c hc h1 h2 h3 s hs
            obtain ⟨t, ht, rfl⟩ := List.mem_map.mp hsl
            obtain ⟨_, htfree⟩ := List.mem_filter.mp ht
            have hcin : c ∈ consultasAgendadasDoDia db medico_id data_str := by
              rw [consultasAgendadasDoDia, List.mem_filter]
              refine ⟨hc, ?_⟩
              simp [h1, h2, h3]
            have hocc := horariosOcupados_mem hoc hcin hs
            rw [slotLivre, Bool.not_eq_true'] at htfree
            have hno := List.any_eq_false.mp htfree _ hocc
            simp only [Bool.and_eq_true, decide_eq_true_eq, not_and] at hno
            show t + 30 ≤ s ∨ (s + c.duracao_minutos) % 1440 ≤ t
            omega
          · rw [List.pairwise_map]
            exact List.Pairwise.sublist (List.filter_sublist _) (slotStartsAux_pairwise 1080 480)

/-- Concrete instance: with 14:00-14:30 occupied on 2025-06-10, the 19
returned slots all avoid the occupied interval and are chronological. -/
theorem C4_free_slots_sound_witness :
    (∀ sl ∈ c4slots, ∀ c ∈ c4db.consultas,
      c.medico_id = some 42 → c.data = "2025-06-10" →
      c.status = StatusConsulta.agendada →
      ∀ s, parseHora c.hora_inicio = some s →
        sl.hora_fim ≤ s ∨ (s + c.duracao_minutos) % 1440 ≤ sl.hora_inicio)
    ∧ c4slots.Pairwise (fun a b => a.hora_inicio < b.hora_inicio) :=
  C4_free_slots_sound c4db 42 "2025-06-10" c4slots (by rfl)

/-- C5: on a well-formed date with no SCHEDULED appointment of the physician,
verificar_disponibilidade_medico returns exactly twenty contiguous 30-minute
slots, the first starting 08:00 (480 minutes) and the last ending 18:00
(1080 minutes). -/
theorem C5_free_slots_full_day (db : DB) (medico_id : Nat) (data_str : String)
    (d : Nat × Nat × Nat) (hdate : parseData data_str = some d)
    (hempty : ∀ c ∈ db.consultas,
      ¬(c.medico_id = some medico_id ∧ c.data = data_str ∧
        c.status = StatusConsulta.agendada)) :
    ∃ slots, verificar_disponibilidade_medico db medico_id data_str = .ok slots ∧
      slots.length = 20 ∧
      slots.head? = some { hora_inicio := 480, hora_fim := 510 } ∧
      slots.getLast? = some { hora_inicio := 1050, hora_fim := 1080 } ∧
      (∀ sl ∈ slots, sl.hora_fim = sl.hora_inicio + 30) ∧
      contiguousSlots slots = true := by
  have hfil : consultasAgendadasDoDia db medico_id data_str = [] := by
    rw [consultasAgendadasDoDia, List.filter_eq_nil_iff]
    intro c hc
    have := hempty c hc
    simp only [Bool.and_eq_true, decide_eq_true_eq]
    exact fun hcontra => this ⟨hcontra.1.1, hcontra.1.2, hcontra.2⟩
  refine ⟨((slotStartsAux 1080 480).filter (slotLivre [])).map
      (fun t => { hora_inicio := t, hora_fim := t + 30 }), ?_, by decide, by decide,
      by decide, by decide, by decide⟩
  simp only [verificar_disponibilidade_medico, hdate, hfil]
  rfl

/-- Concrete instance: physician 42 has no SCHEDULED appointment on
2025-07-15 in c5db (only another physician, another date, or cancelled), so
the full 20-slot day comes back. -/
theorem C5_free_slots_full_day_witness :
    ∃ slots, verificar_disponibilidade_medico c5db 42 "2025-07-15" = .ok slots ∧
      slots.length = 20 ∧
      slots.head? = some { hora_inicio := 480, hora_fim := 510 } ∧
      slots.getLast? = some { hora_inicio := 1050, hora_fim := 1080 } ∧
      (∀ sl ∈ slots, sl.hora_fim = sl.hora_inicio + 30) ∧
      contiguousSlots slots = true :=
  C5_free_slots_full_day c5db 42 "2025-07-15" (2025, 7, 15) (by rfl) (by decide)

/-- C6: resolving a national id that cleans to eleven digits twice returns
the same patient record both times, and the second call leaves the store
untouched whatever name it is given. -/
theorem C6_resolve_or_create_idempotent (db : DB) (nome1 nome2 cpf clean : String)
    (h : _limpar_e_validar_cpf cpf = .ok clean) :
    ∃ p db1, _obter_ou_criar_paciente db nome1 cpf = .ok (p, db1) ∧
      _obter_ou_criar_paciente db1 nome2 cpf = .ok (p, db1) := by
  cases hf : db.pacientes.find? (fun q => decide (q.cpf = clean)) with
  | some p =>
      exact ⟨p, db, by simp only [_obter_ou_criar_paciente, h, hf],
        by simp only [_obter_ou_criar_paciente, h, hf]⟩
  | none =>
      obtain ⟨nid, hnid⟩ : ∃ nid, (match listMax (db.pacientes.map (fun p => p.id)) with
          | some m => m + 1
          | none => 101) = nid := ⟨_, rfl⟩
      have hfind2 : (db.pacientes ++ [({ id := nid, nome := nome1, cpf := clean } : Paciente)]).find?
          (fun q => decide (q.cpf = clean)) =
          some { id := nid, nome := nome1, cpf := clean } := by
        rw [find_append_of_none hf]
        simp [List.find?_cons]
      refine ⟨{ id := nid, nome := nome1, cpf := clean },
        { db with pacientes := db.pacientes ++ [{ id := nid, nome := nome1, cpf := clean }] },
        ?_, ?_⟩
      · simp only [_obter_ou_criar_paciente, h, hf, hnid]
      · simp only [_obter_ou_criar_paciente, h, hfind2]

/-- Concrete instance: resolving 999.888.777-66 twice against a store that
does not know it returns patient 102 both times with the first call's name. -/
theorem C6_resolve_or_create_idempotent_witness :
    ∃ p db1, _obter_ou_criar_paciente c6db "Ana Lima" "999.888.777-66" = .ok (p, db1) ∧
      _obter_ou_criar_paciente db1 "Outro Nome" "999.888.777-66" = .ok (p, db1) :=
  C6_resolve_or_create_idempotent c6db "Ana Lima" "Outro Nome" "999.888.777-66"
    "99988877766" (by rfl)

/-- C7: obter_data_por_termo_relativo checks case-insensitive substrings in
order.  A hoje hit returns today; otherwise an amanha/amanhã hit returns
today + 1; otherwise a weekday-name hit returns the next date strictly after
today carrying that weekday (a full seven days ahead when today already has
that weekday); otherwise today is returned unchanged. -/
theorem C7_relative_date_resolution (hoje : Nat) (termo_data : String) :
    (containsSub (pyLower termo_data) "hoje" = true →
      obter_data_por_termo_relativo hoje termo_data = hoje)
  ∧ (containsSub (pyLower termo_data) "hoje" = false →
      (containsSub (pyLower termo_data) "amanha" || containsSub (pyLower termo_data) "amanhã") = true →
      obter_data_por_termo_relativo hoje termo_data = hoje + 1)
  ∧ (∀ num, containsSub (pyLower termo_data) "hoje" = false →
      (containsSub (pyLower termo_data) "amanha" || containsSub (pyLower termo_data) "amanhã") = false →
      firstWeekday (pyLower termo_data) dias_semana = some num →
      hoje < obter_data_por_termo_relativo hoje termo_data ∧
      obter_data_por_termo_relativo hoje termo_data ≤ hoje + 7 ∧
      weekdayOf (obter_data_por_termo_relativo hoje termo_data) = num ∧
      (weekdayOf hoje = num → obter_data_por_termo_relativo hoje termo_data = hoje + 7))
  ∧ (containsSub (pyLower termo_data) "hoje" = false →
      (containsSub (pyLower termo_data) "amanha" || containsSub (pyLower termo_data) "amanhã") = false →
      firstWeekday (pyLower termo_data) dias_semana = none →
      obter_data_por_termo_relativo hoje termo_data = hoje) := by
  refine ⟨?_, ?_, ?_, ?_⟩
  · intro h1
    simp [obter_data_por_termo_relativo, h1]
  · intro h1 h2
    simp [obter_data_por_termo_relativo, h1, h2]
  · intro num h1 h2 h3
    have hnum : num < 7 := firstWeekday_bound (by decide) h3
    simp only [obter_data_por_termo_relativo, h1, h2, h3, Bool.false_eq_true, if_false]
    unfold weekdayOf
    refine ⟨?_, ?_, ?_, fun hw => ?_⟩ <;> split_ifs <;> omega
  · intro h1 h2 h3
    simp [obter_data_por_termo_relativo, h1, h2, h3]

/-- Concrete instances of the four branches, on a Monday ordinal (weekday of
8 is 0): hoje-hit, amanhã-hit, sexta-hit (Friday, four days ahead) and the
silent fallback. -/
theorem C7_relative_date_resolution_witness :
    obter_data_por_termo_relativo 8 "Hoje à tarde" = 8
  ∧ obter_data_por_termo_relativo 8 "AMANHÃ" = 8 + 1
  ∧ (8 < obter_data_por_termo_relativo 8 "próxima sexta" ∧
     obter_data_por_termo_relativo 8 "próxima sexta" ≤ 8 + 7 ∧
     weekdayOf (obter_data_por_termo_relativo 8 "próxima sexta") = 4 ∧
     (weekdayOf 8 = 4 → obter_data_por_termo_relativo 8 "próxima sexta" = 8 + 7))
  ∧ obter_data_por_termo_relativo 8 "um dia qualquer" = 8 :=
  ⟨(C7_relative_date_resolution 8 "Hoje à tarde").1 (by rfl),
   (C7_relative_date_resolution 8 "AMANHÃ").2.1 (by rfl) (by rfl),
   (C7_relative_date_resolution 8 "próxima sexta").2.2.1 4 (by rfl) (by rfl) (by rfl),
   (C7_relative_date_resolution 8 "um dia qualquer").2.2.2 (by rfl) (by rfl) (by rfl)⟩

/-- C10: listing appointments for an eleven-digit national id unknown to the
patient collection silently INSERTS a patient named Busca with a fresh id and
returns the empty list (fresh because the id allocator takes max + 1 and, by
referential integrity of the store, no appointment can reference it), leaving
the appointment collection unchanged. -/
theorem C10_listing_creates_patient (db : DB) (hoje_str cpf clean : String)
    (hclean : _limpar_e_validar_cpf cpf = .ok clean)
    (habsent : ∀ p ∈ db.pacientes, p.cpf ≠ clean)
    (href : ∀ k ∈ db.consultas, ∃ p ∈ db.pacientes, k.paciente_id = p.id) :
    ∃ pid db1,
      ver_minhas_consultas db hoje_str cpf = .ok ([], db1) ∧
      db1.consultas = db.consultas ∧
      db1.pacientes = db.pacientes ++ [{ id := pid, nome := "Busca", cpf := clean }] ∧
      (∀ p ∈ db.pacientes, p.id ≠ pid) := by
  have hf : db.pacientes.find? (fun q => decide (q.cpf = clean)) = none :=
    find_none_of_all (fun p hp => by simp [habsent p hp])
  obtain ⟨nid, hnid⟩ : ∃ nid, (match listMax (db.pacientes.map (fun p => p.id)) with
      | some m => m + 1
      | none => 101) = nid := ⟨_, rfl⟩
  have hfresh : ∀ p ∈ db.pacientes, p.id ≠ nid := by
    intro p hp
    cases hmax : listMax (db.pacientes.map (fun q => q.id)) with
    | none =>
        have hnil : db.pacientes = [] := List.map_eq_nil_iff.mp (listMax_eq_none hmax)
        rw [hnil] at hp
        cases hp
    | some m =>
        have hle : p.id ≤ m := listMax_ge_mem hmax (List.mem_map_of_mem _ hp)
        simp only [hmax] at hnid
        have hnid2 : m + 1 = nid := hnid
        omega
  have hfilter : db.consultas.filter (fun c =>
      decide (c.paciente_id = nid) &&
      decide (c.status = StatusConsulta.agendada) &&
      !(decide (c.data < hoje_str))) = [] := by
    rw [List.filter_eq_nil_iff]
    intro k hk
    obtain ⟨p, hp, hkp⟩ := href k hk
    have hc1 : decide (k.paciente_id = nid) = false := by
      simp only [decide_eq_false_iff_not]
      rw [hkp]
      exact hfresh p hp
    simp [hc1]
  refine ⟨nid,
    { db with pacientes := db.pacientes ++ [{ id := nid, nome := "Busca", cpf := clean }] },
    ?_, rfl, rfl, hfresh⟩
  simp only [ver_minhas_consultas, _obter_ou_criar_paciente, hclean, hf, hnid, hfilter,
    sortByData, List.map_nil]

/-- Concrete instance: listing for the unknown id 111.222.333-44 on a store
with patient 101 and their future appointment inserts patient 102 named Busca
and returns no appointments. -/
theorem C10_listing_creates_patient_witness :
    ∃ pid db1,
      ver_minhas_consultas c10db "2025-01-01" "111.222.333-44" = .ok ([], db1) ∧
      db1.consultas = c10db.consultas ∧
      db1.pacientes = c10db.pacientes ++ [{ id := pid, nome := "Busca", cpf := "11122233344" }] ∧
      (∀ p ∈ c10db.pacientes, p.id ≠ pid) :=
  C10_listing_creates_patient c10db "2025-01-01" "111.222.333-44" "11122233344"
    (by rfl) (by decide) (by decide)
